import Mathlib

/-!
Shallow embedding of the extraction/reconciliation core of the predictions
repository: `src/predictions/parser/xlsx_parser.py` and
`src/predictions/validation/validators.py`.

Spreadsheet cell values are modelled by `PyVal`; Python floats by `PyFloat`
(NaN or an exact rational — the parser only compares floats with 0, 1 and the
[0,1] range, so rationals are a faithful carrier).  Fallible Python functions
(those that may raise `ValueError`/`KeyError`) are modelled with
`Except String`.
-/

set_option maxHeartbeats 1000000

/-- Python floats as this parser uses them: NaN or an exact rational value. -/
inductive PyFloat where
  | nan : PyFloat
  | val (q : Rat) : PyFloat
deriving DecidableEq, Repr

/-- A spreadsheet cell value as the Python code sees it: `None`, a string,
an int, a float, or a value of any other type (tagged). -/
inductive PyVal where
  | none : PyVal
  | str (s : String) : PyVal
  | int (n : Int) : PyVal
  | float (f : PyFloat) : PyVal
  | other (tag : String) : PyVal
deriving DecidableEq, Repr

deriving instance DecidableEq for Except

/-- Whitespace characters recognised by Python's `str.strip` (ASCII subset:
space, tab, newline, carriage return, vertical tab, form feed). -/
def isPySpace (c : Char) : Bool :=
  c = ' ' || c = '\t' || c = '\n' || c = '\r' || c = Char.ofNat 11 || c = Char.ofNat 12

/-- Python `str.strip()`: drop leading and trailing whitespace. -/
def pyStrip (s : String) : String :=
  ⟨((s.data.dropWhile isPySpace).reverse.dropWhile isPySpace).reverse⟩

/-- Python `str.lower()` on a character, restricted to ASCII letters plus the
accented characters appearing in this repository's alias table. -/
def pyLowerChar (c : Char) : Char :=
  if 'A' ≤ c && c ≤ 'Z' then Char.ofNat (c.toNat + 32)
  else if c = 'Ë' then 'ë'
  else if c = 'Ä' then 'ä'
  else if c = 'É' then 'é'
  else if c = 'È' then 'è'
  else if c = 'À' then 'à'
  else c

/-- Python `str.lower()`. -/
def pyLower (s : String) : String := ⟨s.data.map pyLowerChar⟩

/-- Value of a nonempty decimal digit string. -/
def digitsVal (l : List Char) : Nat := l.foldl (fun a c => a * 10 + (c.toNat - 48)) 0

/-- Python `int(str)`: strips whitespace, accepts an optional sign followed by
decimal digits; anything else raises `ValueError` (modelled as `none`). -/
def pyParseIntStr (s : String) : Option Int :=
  let t := (pyStrip s).data
  let p : Int × List Char :=
    match t with
    | '-' :: r => (-1, r)
    | '+' :: r => (1, r)
    | _ => (1, t)
  if !p.2.isEmpty && p.2.all Char.isDigit then some (p.1 * (digitsVal p.2 : Int))
  else Option.none

/-- Python `float(str)` on the shapes this repository's data uses: strips
whitespace, accepts an optional sign followed by decimal digits with an
optional fractional part, or (case-insensitively) `nan`. -/
def pyParseFloat (s : String) : Option PyFloat :=
  let t := (pyStrip s).data
  let p : Rat × List Char :=
    match t with
    | '-' :: r => (-1, r)
    | '+' :: r => (1, r)
    | _ => (1, t)
  if (⟨p.2.map pyLowerChar⟩ : String) = "nan" then some .nan
  else
    match p.2.splitOn '.' with
    | [ip] =>
        if !ip.isEmpty && ip.all Char.isDigit then some (.val (p.1 * (digitsVal ip : Rat)))
        else Option.none
    | [ip, fp] =>
        if (!ip.isEmpty || !fp.isEmpty) && ip.all Char.isDigit && fp.all Char.isDigit then
          some (.val (p.1 * ((digitsVal ip : Rat) + (digitsVal fp : Rat) / ((10 : Rat) ^ fp.length))))
        else Option.none
    | _ => Option.none

/-- Python `str(value)` (float rendering approximated; the parser only ever
matches the resulting text of string cells, which pass through unchanged). -/
def pyStr : PyVal → String
  | .none => "None"
  | .str s => s
  | .int n => toString n
  | .float .nan => "nan"
  | .float (.val q) => if q.den = 1 then toString q.num ++ ".0" else toString q
  | .other t => t

/-- Python `float(value)` coercion as used by the probability validators:
succeeds on ints, floats and numeric strings, fails elsewhere. -/
def tryFloat : PyVal → Option PyFloat
  | .none => Option.none
  | .str s => pyParseFloat s
  | .int n => some (.val (n : Rat))
  | .float f => some f
  | .other _ => Option.none

/-- pandas `isna`: a cell is missing when it is `None` or NaN. -/
def isNA : PyVal → Bool
  | .none => true
  | .float .nan => true
  | _ => false

/-- Python `==` between a cell value and an int (used for ID row matching). -/
def pyEqInt (v : PyVal) (n : Int) : Bool :=
  match v with
  | .int m => m == n
  | .float (.val q) => q == (n : Rat)
  | _ => false

/-- Python `int(value)`: ints pass through, finite floats truncate toward
zero, strings parse as decimal integers; anything else raises. -/
def pyInt : PyVal → Except String Int
  | .int n => .ok n
  | .float .nan => .error "cannot convert float NaN to integer"
  | .float (.val q) => .ok (if 0 ≤ q then q.floor else -((-q).floor))
  | .str s =>
      match pyParseIntStr s with
      | some n => .ok n
      | Option.none => .error ("invalid literal for int: " ++ s)
  | .none => .error "int argument must not be None"
  | .other t => .error ("int argument of unexpected type " ++ t)

/-- `xlsx_parser.validate_probability`: validate and convert a probability
value, raising on `None`, non-numeric input, NaN, or out-of-range values. -/
def validate_probability (v : PyVal) : Except String Rat :=
  match v with
  | .none => .error "Probability cannot be None"
  | _ =>
    match tryFloat v with
    | Option.none => .error "Cannot convert value to probability"
    | some .nan => .error "Probability cannot be NaN"
    | some (.val q) =>
        if 0 ≤ q && q ≤ 1 then .ok q
        else .error "Probability must be in range [0.0, 1.0]"

/-- `xlsx_parser.sanitize_probability`: same coercion as
`validate_probability` but every invalid input maps to `0.5`. -/
def sanitize_probability (v : PyVal) : Rat :=
  match v with
  | .none => 1 / 2
  | _ =>
    match tryFloat v with
    | Option.none => 1 / 2
    | some .nan => 1 / 2
    | some (.val q) => if 0 ≤ q && q ≤ 1 then q else 1 / 2

/-- `xlsx_parser.parse_outcome`: parse an outcome cell to
`some true` / `some false` / `none` (unresolved), raising on anything else. -/
def parse_outcome (v : PyVal) : Except String (Option Bool) :=
  match v with
  | .none => .ok Option.none
  | .str s =>
      let t := pyStrip s
      if t = "" || t = "-" then .ok Option.none
      else if t = "0" || t = "0.0" then .ok (some false)
      else if t = "1" || t = "1.0" then .ok (some true)
      else .error ("Unable to parse outcome value: " ++ s)
  | .int n =>
      if n = 0 then .ok (some false)
      else if n = 1 then .ok (some true)
      else .error "Numeric outcome must be 0 or 1"
  | .float .nan => .ok Option.none
  | .float (.val q) =>
      if q = 0 then .ok (some false)
      else if q = 1 then .ok (some true)
      else .error "Numeric outcome must be 0 or 1"
  | .other t => .error ("Unexpected outcome type: " ++ t)

/-- Match the separator regex alternative for the word "and": at least one
whitespace character, the letters a-n-d (case-insensitive), then at least one
whitespace character.  Returns the remainder with a proof that it is shorter,
which `splitProposer` uses for termination. -/
def matchAndSep (l : List Char) : Option { r : List Char // r.length < l.length } :=
  if h1 : (l.dropWhile isPySpace).length < l.length then
    match h2 : l.dropWhile isPySpace with
    | a :: n :: d :: rest2 =>
        if pyLowerChar a = 'a' && pyLowerChar n = 'n' && pyLowerChar d = 'd' then
          if h3 : (rest2.dropWhile isPySpace).length < rest2.length then
            some ⟨rest2.dropWhile isPySpace, by rw [h2] at h1; simp at h1; omega⟩
          else Option.none
        else Option.none
    | _ => Option.none
  else Option.none

/-- Fuel-bounded worker for `splitProposer`: splits on the separator pattern
of `extract_first_proposer` (`re.split` on comma, `&`, or a
whitespace-delimited "and"); surrounding whitespace is not absorbed into the
separator here, which is immaterial because every consumer strips the parts.
Each step consumes at least one character, so fuel initialised to the input
length plus one never runs out. -/
def splitProposerFuel : Nat → List Char → List Char → List String
  | 0, _, acc => [⟨acc.reverse⟩]
  | _ + 1, [], acc => [⟨acc.reverse⟩]
  | fuel + 1, c :: rest, acc =>
    if c = ',' || c = '&' then String.mk acc.reverse :: splitProposerFuel fuel rest []
    else
      match matchAndSep (c :: rest) with
      | some ⟨rem, _⟩ => String.mk acc.reverse :: splitProposerFuel fuel rem []
      | Option.none => splitProposerFuel fuel rest (c :: acc)

/-- The separator split of `extract_first_proposer`. -/
def splitProposer (l : List Char) (acc : List Char) : List String :=
  splitProposerFuel (l.length + 1) l acc

/-- `xlsx_parser.extract_first_proposer`: first non-empty stripped segment of
the separator split, falling back to the stripped input. -/
def extract_first_proposer (name : String) : String :=
  match ((splitProposer name.data []).map pyStrip).find? (fun p => p ≠ "") with
  | some p => p
  | Option.none => pyStrip name

/-- The hand-curated alias table of `normalize_participant_name`
(lower-cased variant, canonical name). -/
def name_mapping : List (String × String) :=
  [("boof", "Bruce"), ("bruce", "Bruce"),
   ("gael", "Gael"), ("gaël", "Gael"), ("gäel", "Gael"),
   ("chris", "Christine"), ("christine", "Christine")]

/-- `xlsx_parser.normalize_participant_name`: strip, look the lower-cased
result up in the alias table, return the canonical name on a hit and the
stripped input otherwise. -/
def normalize_participant_name (name : String) : String :=
  let normalized := pyStrip name
  match name_mapping.lookup (pyLower normalized) with
  | some canonical => canonical
  | Option.none => normalized

/-- `xlsx_parser.normalize_text_for_matching`: strip, lowercase, collapse
internal whitespace runs to single spaces, strip trailing punctuation. -/
def normalize_text_for_matching (text : String) : String :=
  let n1 := pyLower (pyStrip text)
  let n2 := " ".intercalate ((n1.split isPySpace).filter (fun w => w ≠ ""))
  ⟨(n2.data.reverse.dropWhile (fun c => ['.', '!', '?', ',', ';', ':'].contains c)).reverse⟩

/-- The domain record for a statement (`xlsx_parser.Statement`). -/
structure Statement where
  id : String
  year : Nat
  text : String
  category : String
  proposer : String
deriving DecidableEq, Repr

/-- The domain record for a prediction (`xlsx_parser.Prediction`). -/
structure Prediction where
  statement_id : String
  participant : String
  probability : Rat
deriving DecidableEq, Repr

/-- The domain record for an outcome (`xlsx_parser.Outcome`); the `date`
field is an optional ISO date string, never populated by the parser. -/
structure Outcome where
  statement_id : String
  outcome : Option Bool
  date : Option String
deriving DecidableEq, Repr

/-- The aggregate root (`xlsx_parser.GameData`). -/
structure GameData where
  statements : List Statement
  predictions : List Prediction
  outcomes : List Outcome
deriving DecidableEq, Repr

/-- A pandas DataFrame as read from one sheet: named columns and rows of
cells aligned with the column list. -/
structure DataFrame where
  cols : List String
  rows : List (List PyVal)
deriving DecidableEq, Repr

/-- One worksheet: its title and its tabular content. -/
structure Sheet where
  name : String
  df : DataFrame
deriving DecidableEq, Repr

/-- A workbook: the ordered list of worksheets of one xlsx file. -/
structure Workbook where
  sheets : List Sheet
deriving DecidableEq, Repr

/-- `openpyxl` `wb.sheetnames`. -/
def sheetnames (wb : Workbook) : List String := wb.sheets.map (fun s => s.name)

/-- Read one sheet's DataFrame (`pd.read_excel(path, sheet_name)`), `none`
when no sheet of that name exists. -/
def getSheet (wb : Workbook) (n : String) : Option DataFrame :=
  (wb.sheets.find? (fun s => s.name == n)).map (fun s => s.df)

/-- Index of a named column in a DataFrame. -/
def colIndex (df : DataFrame) (c : String) : Option Nat :=
  df.cols.findIdx? (fun x => x == c)

/-- The cell of row `r` at column index `j` (absent cells read as `None`). -/
def cellAt (r : List PyVal) (j : Nat) : PyVal := r.getD j PyVal.none

/-- The values of a named column, top to bottom. -/
def colValues (df : DataFrame) (c : String) : List PyVal :=
  match colIndex df c with
  | some j => df.rows.map (fun r => cellAt r j)
  | Option.none => []

/-- The two schema eras (`xlsx_parser.SheetStructure`). -/
inductive SheetStructure where
  | LEGACY : SheetStructure
  | CURRENT : SheetStructure
deriving DecidableEq, Repr

/-- `xlsx_parser.detect_structure`: CURRENT when a "Statements" sheet exists,
else LEGACY when a "Main" or "Input" sheet exists, else an error. -/
def detect_structure (wb : Workbook) : Except String SheetStructure :=
  if "Statements" ∈ sheetnames wb then .ok .CURRENT
  else if "Main" ∈ sheetnames wb || "Input" ∈ sheetnames wb then .ok .LEGACY
  else .error "Unable to detect structure: neither Main/Input nor Statements sheet found"

/-- The per-file Python `for` loop over rows with a fallible body: stops at
the first raised error, otherwise collects the produced values in order. -/
def mapExcept (f : α → Except String β) : List α → Except String (List β)
  | [] => .ok []
  | a :: l =>
    match f a with
    | .error e => .error e
    | .ok b =>
      match mapExcept f l with
      | .error e => .error e
      | .ok bs => .ok (b :: bs)

/-- pandas `Series.duplicated().any()` over a list of cell values (the callers
have already dropped missing values, so NaN handling is immaterial). -/
def hasPyDup : List PyVal → Bool
  | [] => false
  | v :: r => r.any (fun w => w == v) || hasPyDup r

/-- The legacy primary sheet name: "Main" when present, else "Input". -/
def legacyPrimary (names : List String) : Except String String :=
  if "Main" ∈ names then .ok "Main"
  else if "Input" ∈ names then .ok "Input"
  else .error "Neither Main nor Input sheet found"

/-- Build one `Statement` from a row given the column indices of the ID,
Prediction, Category and proposer columns (shared shape of both eras). -/
def rowToStatement (year : Nat) (jId jPred jCat jProp : Nat) (r : List PyVal) :
    Except String Statement :=
  match pyInt (cellAt r jId) with
  | .error e => .error e
  | .ok n =>
      .ok { id := toString year ++ "-" ++ toString n
          , year := year
          , text := pyStrip (pyStr (cellAt r jPred))
          , category := pyStrip (pyStr (cellAt r jCat))
          , proposer := normalize_participant_name (extract_first_proposer (pyStr (cellAt r jProp))) }

/-- Common body of the two statement extractors, given the sheet and the four
column names: require the columns, drop rows with a missing ID, fail on
duplicated IDs, then build the statements. -/
def extractStatementsFrom (df : DataFrame) (sheetLabel : String) (year : Nat)
    (idCol predCol catCol propCol : String) : Except String (List Statement) :=
  let required := [idCol, predCol, catCol, propCol]
  if required.all (fun c => c ∈ df.cols) then
    match colIndex df idCol, colIndex df predCol, colIndex df catCol, colIndex df propCol with
    | some jId, some jPred, some jCat, some jProp =>
      let rows := df.rows.filter (fun r => !isNA (cellAt r jId))
      if hasPyDup (rows.map (fun r => cellAt r jId)) then
        .error "Duplicate statement IDs found"
      else
        mapExcept (rowToStatement year jId jPred jCat jProp) rows
    | _, _, _, _ => .error "unreachable: required columns checked present"
  else .error ("Missing required columns in " ++ sheetLabel ++ " sheet")

/-- `xlsx_parser.extract_statements_2022_2024`: read the "Main" or "Input"
sheet with columns ID / Prediction / Category / Proposer. -/
def extract_statements_2022_2024 (wb : Workbook) (year : Nat) :
    Except String (List Statement) :=
  match legacyPrimary (sheetnames wb) with
  | .error e => .error e
  | .ok sheetName =>
    match getSheet wb sheetName with
    | Option.none => .error ("Worksheet named " ++ sheetName ++ " not found")
    | some df => extractStatementsFrom df "Main" year "ID" "Prediction" "Category" "Proposer"

/-- `xlsx_parser.extract_statements_2025`: read the "Statements" sheet with
columns Number / Prediction / Category and proposer column "Name" when
present, else "Author". -/
def extract_statements_2025 (wb : Workbook) (year : Nat) :
    Except String (List Statement) :=
  match getSheet wb "Statements" with
  | Option.none => .error "Worksheet named Statements not found"
  | some df =>
    if "Name" ∈ df.cols then
      extractStatementsFrom df "Statements" year "Number" "Prediction" "Category" "Name"
    else if "Author" ∈ df.cols then
      extractStatementsFrom df "Statements" year "Number" "Prediction" "Category" "Author"
    else .error "Missing proposer column in Statements sheet (expected Name or Author)"

/-- Does a global statement id contain a dash? -/
def hasDash (sid : String) : Bool := sid.data.contains '-'

/-- The text after the first dash of a global id (`sid.split("-", 1)[1]`). -/
def afterDash (sid : String) : String :=
  ⟨(sid.data.dropWhile (fun c => c != '-')).tail⟩

/-- The local id of a global statement id: the part after the first dash when
one exists, else the whole id (as in `extract_outcomes`). -/
def localId (sid : String) : String :=
  if hasDash sid then afterDash sid else sid

/-- Sheets treated as participant sheets: all but the per-era exclusion set. -/
def participantSheets (wb : Workbook) (excluded : List String) : List Sheet :=
  wb.sheets.filter (fun s => !excluded.contains s.name)

/-- One row of a legacy participant sheet: integer-cast the ID cell, match it
against the local component of every known statement's global id (first hit
wins), fail when no statement matches, and sanitize the probability. -/
def legacyRowPrediction (statements : List Statement) (participant : String)
    (sheetName : String) (jId jProb : Nat) (r : List PyVal) :
    Except String Prediction :=
  match pyInt (cellAt r jId) with
  | .error e => .error e
  | .ok n =>
    let sid := toString n
    match statements.find? (fun stmt => hasDash stmt.id && afterDash stmt.id == sid) with
    | Option.none => .error ("Invalid statement ID " ++ sid ++ " in sheet " ++ sheetName)
    | some stmt =>
        .ok { statement_id := stmt.id
            , participant := participant
            , probability := sanitize_probability (cellAt r jProb) }

/-- One legacy participant sheet of `extract_predictions_2022_2024`: skip
ChatGPT, skip sheets without an "ID" column or without a probability column,
drop rows with a missing ID, then read each remaining row. -/
def legacySheetPredictions (statements : List Statement) (s : Sheet) :
    Except String (List Prediction) :=
  let participant := normalize_participant_name s.name
  if pyLower participant = "chatgpt" then .ok []
  else if "ID" ∈ s.df.cols then
    let probCol :=
      if "Probability (0.0 to 1.0)" ∈ s.df.cols then some "Probability (0.0 to 1.0)"
      else if "Probability" ∈ s.df.cols then some "Probability"
      else Option.none
    match probCol with
    | Option.none => .ok []
    | some pc =>
      match colIndex s.df "ID", colIndex s.df pc with
      | some jId, some jProb =>
        let rows := s.df.rows.filter (fun r => !isNA (cellAt r jId))
        mapExcept (legacyRowPrediction statements participant s.name jId jProb) rows
      | _, _ => .error "unreachable: columns checked present"
  else .ok []

/-- `xlsx_parser.extract_predictions_2022_2024`. -/
def extract_predictions_2022_2024 (wb : Workbook) (statements : List Statement) :
    Except String (List Prediction) :=
  match mapExcept (legacySheetPredictions statements)
      (participantSheets wb ["Main", "Summary", "Scores"]) with
  | .error e => .error e
  | .ok ls => .ok ls.flatten

/-- Python-dict lookup from normalized statement text to statement: later
insertions overwrite earlier ones, hence the reversed search. -/
def textToStmt (statements : List Statement) (key : String) : Option Statement :=
  statements.reverse.find? (fun stmt => normalize_text_for_matching stmt.text == key)

/-- Python `str.startswith`, computed on the character lists (kernel-friendly
equivalent of `String.startsWith`). -/
def strStartsWith (s pre : String) : Bool := pre.data.isPrefixOf s.data

/-- One row of a current-era participant sheet (`extract_predictions_2025`):
rows whose stripped Prediction text starts with (hence also: equals) "#REF!"
are skipped (`ok none`); otherwise the normalized text is matched against the
statement table, failing when no statement matches. -/
def processRow2025 (statements : List Statement) (participant : String)
    (sheetName : String) (jPred jProb : Nat) (r : List PyVal) :
    Except String (Option Prediction) :=
  let prediction_text := pyStrip (pyStr (cellAt r jPred))
  if strStartsWith prediction_text "#REF!" || prediction_text == "#REF!" then
    .ok Option.none
  else
    match textToStmt statements (normalize_text_for_matching prediction_text) with
    | Option.none =>
        .error ("Cannot match prediction text in sheet " ++ sheetName ++ ": " ++ prediction_text)
    | some stmt =>
        .ok (some { statement_id := stmt.id
                  , participant := participant
                  , probability := sanitize_probability (cellAt r jProb) })

/-- One current-era participant sheet: skip ChatGPT, skip sheets lacking
"Prediction" or "Probability" columns, drop rows with a missing Prediction,
then process each remaining row. -/
def currentSheetPredictions (statements : List Statement) (s : Sheet) :
    Except String (List Prediction) :=
  let participant := normalize_participant_name s.name
  if pyLower participant = "chatgpt" then .ok []
  else if "Prediction" ∈ s.df.cols && "Probability" ∈ s.df.cols then
    match colIndex s.df "Prediction", colIndex s.df "Probability" with
    | some jPred, some jProb =>
      let rows := s.df.rows.filter (fun r => !isNA (cellAt r jPred))
      match mapExcept (processRow2025 statements participant s.name jPred jProb) rows with
      | .error e => .error e
      | .ok l => .ok (l.filterMap id)
    | _, _ => .error "unreachable: columns checked present"
  else .ok []

/-- `xlsx_parser.extract_predictions_2025`. -/
def extract_predictions_2025 (wb : Workbook) (statements : List Statement) :
    Except String (List Prediction) :=
  match mapExcept (currentSheetPredictions statements)
      (participantSheets wb ["Statements", "Summary"]) with
  | .error e => .error e
  | .ok ls => .ok ls.flatten

/-- The legacy outcome column on the primary sheet: the long header when
present, else plain "Outcome" when present, else absent. -/
def legacyOutcomeCol (df : DataFrame) : Option String :=
  if "Outcome (1 = true, 0 = false)" ∈ df.cols then some "Outcome (1 = true, 0 = false)"
  else if "Outcome" ∈ df.cols then some "Outcome"
  else Option.none

/-- Is the chosen outcome column absent or entirely missing (`outcome_col is
None or df[outcome_col].isna().all()`)? -/
def outcomeColEmpty (df : DataFrame) (ocol : Option String) : Bool :=
  match ocol with
  | Option.none => true
  | some c => (colValues df c).all isNA

/-- Outcome column of the "Summary" sheet, tried in the priority order of the
2022 special case; note the final fallback names "Outcome" even when that
column does not exist. -/
def summaryOutcomeCol (df : DataFrame) : String :=
  if "Outcome (0 = false, 1 = true)" ∈ df.cols then "Outcome (0 = false, 1 = true)"
  else if "Outcome (1 = true, 0 = false)" ∈ df.cols then "Outcome (1 = true, 0 = false)"
  else "Outcome"

/-- The sheet/column/ID-column selection logic of `extract_outcomes`
(lines 633–679 of `xlsx_parser.py`): detect the era, pick the outcome sheet
and outcome column, with the 2022 Summary-sheet special case, and return the
era's ID column name ("ID" for LEGACY, "Number" for CURRENT). -/
def chooseOutcomeSheet (wb : Workbook) :
    Except String (DataFrame × Option String × String) :=
  match detect_structure wb with
  | .error e => .error e
  | .ok .LEGACY =>
    match legacyPrimary (sheetnames wb) with
    | .error e => .error e
    | .ok sheetName =>
      match getSheet wb sheetName with
      | Option.none => .error ("Worksheet named " ++ sheetName ++ " not found")
      | some df =>
        let ocol := legacyOutcomeCol df
        if sheetName = "Main" && outcomeColEmpty df ocol then
          if "Summary" ∈ sheetnames wb then
            match getSheet wb "Summary" with
            | Option.none => .error "Worksheet named Summary not found"
            | some df2 => .ok (df2, some (summaryOutcomeCol df2), "ID")
          else .ok (df, ocol, "ID")
        else .ok (df, ocol, "ID")
  | .ok .CURRENT =>
    match getSheet wb "Statements" with
    | Option.none => .error "Worksheet named Statements not found"
    | some df =>
      let ocol :=
        if "Outcome (1 = true, 0 = false)" ∈ df.cols then "Outcome (1 = true, 0 = false)"
        else "Outcome"
      .ok (df, some ocol, "Number")

/-- Locate the outcome cell for one statement: integer-cast its local id,
look for the first row whose ID cell equals it (`None` when no row matches),
then read the outcome column of that row (a `KeyError` when the chosen
column does not exist). -/
def findOutcomeValue (df : DataFrame) (idCol : String) (ocol : Option String)
    (sid : String) : Except String PyVal :=
  match pyParseIntStr (localId sid) with
  | Option.none => .error ("invalid literal for int: " ++ localId sid)
  | some n =>
    match colIndex df idCol with
    | Option.none => .error ("KeyError: " ++ idCol)
    | some j =>
      match df.rows.find? (fun r => pyEqInt (cellAt r j) n) with
      | Option.none => .ok PyVal.none
      | some r =>
        match ocol with
        | Option.none => .error "KeyError: None"
        | some c =>
          match colIndex df c with
          | Option.none => .error ("KeyError: " ++ c)
          | some k => .ok (cellAt r k)

/-- Build the `Outcome` record for one statement: parse the located value,
propagating its failure; the date field is never populated. -/
def outcomeFor (df : DataFrame) (idCol : String) (ocol : Option String)
    (stmt : Statement) : Except String Outcome :=
  match findOutcomeValue df idCol ocol stmt.id with
  | .error e => .error e
  | .ok v =>
    match parse_outcome v with
    | .error e => .error e
    | .ok ob => .ok { statement_id := stmt.id, outcome := ob, date := Option.none }

/-- `xlsx_parser.extract_outcomes`: choose the outcome sheet and column per
era, then produce one outcome per input statement, in order. -/
def extract_outcomes (wb : Workbook) (statements : List Statement) :
    Except String (List Outcome) :=
  match chooseOutcomeSheet wb with
  | .error e => .error e
  | .ok (df, ocol, idCol) => mapExcept (outcomeFor df idCol ocol) statements

/-- One parsed xlsx file: the filename stem (name without the ".xlsx"
extension) and the workbook content. -/
structure XFile where
  stem : String
  wb : Workbook

/-- The file's name on disk. -/
def fname (f : XFile) : String := f.stem ++ ".xlsx"

/-- `re.search(r"20\d\d", stem)`: the first 4-digit year token in the
2000–2099 range, scanning left to right. -/
def findYearToken : List Char → Option Nat
  | [] => Option.none
  | c1 :: rest =>
    match rest with
    | c2 :: c3 :: c4 :: _ =>
      if c1 = '2' && c2 = '0' && c3.isDigit && c4.isDigit then
        some (2000 + 10 * (c3.toNat - 48) + (c4.toNat - 48))
      else findYearToken rest
    | _ => Option.none

/-- `xlsx_parser.parse_xlsx_file`: extract the year from the filename (an
error when the stem holds no year token), detect the structure, and run the
era's statement, prediction and outcome extractors. -/
def parse_xlsx_file (f : XFile) : Except String GameData :=
  match findYearToken f.stem.data with
  | Option.none => .error ("Cannot extract year from filename: " ++ fname f)
  | some year =>
    match detect_structure f.wb with
    | .error e => .error e
    | .ok fmt =>
      match (match fmt with
             | .LEGACY => extract_statements_2022_2024 f.wb year
             | .CURRENT => extract_statements_2025 f.wb year) with
      | .error e => .error e
      | .ok statements =>
        match (match fmt with
               | .LEGACY => extract_predictions_2022_2024 f.wb statements
               | .CURRENT => extract_predictions_2025 f.wb statements) with
        | .error e => .error e
        | .ok predictions =>
          match extract_outcomes f.wb statements with
          | .error e => .error e
          | .ok outcomes =>
            .ok { statements := statements, predictions := predictions, outcomes := outcomes }

/-- The per-year set of statement ids already seen, as an association list. -/
def lookupYear (m : List (Nat × List String)) (y : Nat) : List String :=
  match m.find? (fun p => p.1 == y) with
  | some p => p.2
  | Option.none => []

/-- Replace (or append) the entry of year `y`. -/
def setYear (m : List (Nat × List String)) (y : Nat) (s : List String) :
    List (Nat × List String) :=
  match m with
  | [] => [(y, s)]
  | p :: rest => if p.1 = y then (y, s) :: rest else p :: setYear rest y s

/-- The duplicate-ID loop of `parse_all_years`: walk the file's statements,
failing at the first id already seen for this year, adding each id as it is
passed. -/
def checkDupes (year : Nat) : List Statement → List String → Except String (List String)
  | [], seen => .ok seen
  | stmt :: rest, seen =>
    if stmt.id ∈ seen then
      .error ("Duplicate statement ID " ++ stmt.id ++ " found in year " ++ toString year)
    else checkDupes year rest (stmt.id :: seen)

/-- Wrap a per-file failure with the filename
(`Error parsing {file}: {e}`). -/
def wrapErr (n : String) : Except String α → Except String α
  | .error e => .error ("Error parsing " ++ n ++ ": " ++ e)
  | .ok a => .ok a

/-- The body of the `parse_all_years` loop for one file: parse it, re-derive
its year from the filename (falling back to the year of its first statement),
run the per-year duplicate check when the year is truthy, and append the
file's data; every failure inside the body is wrapped with the filename. -/
def processFile (acc : GameData × List (Nat × List String)) (f : XFile) :
    Except String (GameData × List (Nat × List String)) :=
  wrapErr (fname f)
    (match parse_xlsx_file f with
     | .error e => .error e
     | .ok gd =>
       let oy : Option Nat :=
         match findYearToken f.stem.data with
         | some y => some y
         | Option.none =>
           match gd.statements with
           | stmt :: _ => some stmt.year
           | [] => Option.none
       match ((match oy with
               | some y =>
                 if y = 0 then .ok acc.2
                 else
                   match checkDupes y gd.statements (lookupYear acc.2 y) with
                   | .error e => .error e
                   | .ok seen2 => .ok (setYear acc.2 y seen2)
               | Option.none => .ok acc.2) :
              Except String (List (Nat × List String))) with
       | .error e => .error e
       | .ok byYear =>
         .ok ({ statements := acc.1.statements ++ gd.statements
              , predictions := acc.1.predictions ++ gd.predictions
              , outcomes := acc.1.outcomes ++ gd.outcomes }, byYear))

/-- Fold a fallible step over a list, stopping at the first error. -/
def foldExcept (f : β → α → Except String β) : β → List α → Except String β
  | b, [] => .ok b
  | b, a :: l =>
    match f b a with
    | .error e => .error e
    | .ok b2 => foldExcept f b2 l

/-- `xlsx_parser.parse_all_years`: fail when the directory holds no xlsx
files, else process the files in order (the input list models the
lexicographically sorted directory listing) and return the concatenation. -/
def parse_all_years (files : List XFile) : Except String GameData :=
  if files.isEmpty then .error "No .xlsx files found"
  else
    match foldExcept processFile ({ statements := [], predictions := [], outcomes := [] }, []) files with
    | .error e => .error e
    | .ok acc => .ok acc.1

/-- The error messages `validators.validate_predictions` can append, as
structured values carrying the data interpolated into the Python strings. -/
inductive PredError where
  | nonexistentStatement (sid : String)
  | invalidProbability (p : Rat) (participant : String) (sid : String)
  | duplicatePrediction (participant : String) (sid : String)
deriving DecidableEq, Repr

/-- A completeness warning of `validate_predictions`: the participant, how
many statements of that year they missed, the year, and the sorted sample of
at most five missing ids. -/
structure PredWarning where
  participant : String
  missingCount : Nat
  year : Nat
  sample : List String
deriving DecidableEq, Repr

/-- The result record of one validator pass (`validators.ValidationResult`),
with the message lists carried as structured values. -/
structure ValidationResult where
  valid : Bool
  errors : List PredError
  warnings : List PredWarning
deriving DecidableEq, Repr

/-- The year of a (valid) statement id: Python's `stmt_id_to_year` dict,
where later statements overwrite earlier ones.  The 0 default is unreachable
for ids drawn from the statement list. -/
def stmtYear (statements : List Statement) (sid : String) : Nat :=
  match statements.reverse.find? (fun stmt => stmt.id == sid) with
  | some stmt => stmt.year
  | Option.none => 0

/-- `participants_by_year[year].add(participant)` over an insertion-ordered
association list with insertion-ordered member lists. -/
def addParticipant (m : List (Nat × List String)) (y : Nat) (who : String) :
    List (Nat × List String) :=
  match m with
  | [] => [(y, [who])]
  | p :: rest =>
    if p.1 = y then (y, if who ∈ p.2 then p.2 else p.2 ++ [who]) :: rest
    else p :: addParticipant rest y who

/-- The main loop of `validate_predictions`: returns the errors in
encounter order together with the participants-by-year table.  A prediction
whose statement id is unknown contributes its referential error and is then
skipped (`continue`) before the range, duplicate and participant-tracking
steps. -/
def predLoop (validIds : List String) (statements : List Statement) :
    List Prediction → List (String × String) → List (Nat × List String) →
    List PredError × List (Nat × List String)
  | [], _, pby => ([], pby)
  | p :: rest, seen, pby =>
    if p.statement_id ∈ validIds then
      let e1 : List PredError :=
        if 0 ≤ p.probability && p.probability ≤ 1 then []
        else [.invalidProbability p.probability p.participant p.statement_id]
      let e2 : List PredError :=
        if (p.participant, p.statement_id) ∈ seen then
          [.duplicatePrediction p.participant p.statement_id]
        else []
      let pby2 := addParticipant pby (stmtYear statements p.statement_id) p.participant
      let rec2 := predLoop validIds statements rest ((p.participant, p.statement_id) :: seen) pby2
      (e1 ++ e2 ++ rec2.1, rec2.2)
    else
      let rec2 := predLoop validIds statements rest seen pby
      (.nonexistentStatement p.statement_id :: rec2.1, rec2.2)

/-- Insertion sort by string order, modelling Python's `sorted`. -/
def insertSorted (x : String) : List String → List String
  | [] => [x]
  | y :: l => if x ≤ y then x :: y :: l else y :: insertSorted x l

/-- Python `sorted` on a list of strings. -/
def sortStrings : List String → List String
  | [] => []
  | x :: l => insertSorted x (sortStrings l)

/-- The completeness pass of `validate_predictions`: for every year and every
participant recorded for it, compare that year's statement-id set with the
ids the participant predicted anywhere, warning when some are missing. -/
def completenessWarnings (gd : GameData) (pby : List (Nat × List String)) :
    List PredWarning :=
  (pby.map (fun yearEntry =>
    yearEntry.2.filterMap (fun who =>
      let expected := ((gd.statements.filter (fun stmt => stmt.year == yearEntry.1)).map
        (fun stmt => stmt.id)).dedup
      let predicted := (gd.predictions.filter (fun p => p.participant == who)).map
        (fun p => p.statement_id)
      let missing := expected.filter (fun sid => !predicted.contains sid)
      if missing.isEmpty then Option.none
      else some { participant := who
                , missingCount := missing.length
                , year := yearEntry.1
                , sample := (sortStrings missing).take 5 }))).flatten

/-- `validators.validate_predictions`: referential, range and duplicate
errors over the prediction list, then per-year completeness warnings. -/
def validate_predictions (gd : GameData) : ValidationResult :=
  let validIds := gd.statements.map (fun stmt => stmt.id)
  let loopOut := predLoop validIds gd.statements gd.predictions [] []
  { valid := loopOut.1.isEmpty
  , errors := loopOut.1
  , warnings := completenessWarnings gd loopOut.2 }

/-- Predicate picking out the referential errors of `validate_predictions`. -/
def isNonexistentErr : PredError → Bool
  | .nonexistentStatement _ => true
  | _ => false

/-- All participants recorded anywhere in a participants-by-year table. -/
def pbyParticipants (pby : List (Nat × List String)) : List String :=
  (pby.map Prod.snd).flatten

/-! ### Concrete fixtures used by witnesses and counterexamples -/

/-- A workbook carrying both era markers at once. -/
def wbBothMarkers : Workbook := ⟨[⟨"Statements", ⟨[], []⟩⟩, ⟨"Main", ⟨[], []⟩⟩]⟩

/-- Primary sheet of the C1 counterexample: legacy "Input" sheet with no
outcome column. -/
def dfInputC1 : DataFrame := ⟨["ID"], [[PyVal.int 1]]⟩

/-- Summary sheet of the C1 counterexample, carrying the 2022-style outcome
column with a resolved outcome. -/
def dfSummaryC1 : DataFrame :=
  ⟨["ID", "Outcome (0 = false, 1 = true)"], [[PyVal.int 1, PyVal.int 1]]⟩

/-- A LEGACY workbook whose primary sheet is "Input" (outcome column absent)
next to a "Summary" sheet holding the outcomes. -/
def wbC1 : Workbook := ⟨[⟨"Input", dfInputC1⟩, ⟨"Summary", dfSummaryC1⟩]⟩

/-- Main sheet with an entirely empty outcome column. -/
def dfMainEmptyOutcome : DataFrame :=
  ⟨["ID", "Outcome"], [[PyVal.int 1, PyVal.float .nan]]⟩

/-- A LEGACY workbook where the "Main" outcome column is all-NaN and a
"Summary" sheet exists: the 2022 special case. -/
def wbC1W : Workbook := ⟨[⟨"Main", dfMainEmptyOutcome⟩, ⟨"Summary", dfSummaryC1⟩]⟩

/-- Main sheet of a minimal well-formed legacy file. -/
def dfMainW : DataFrame :=
  ⟨["ID", "Prediction", "Category", "Proposer", "Outcome"],
   [[PyVal.int 1, PyVal.str "It rains", PyVal.str "Weather", PyVal.str "Alice", PyVal.int 1]]⟩

/-- A minimal well-formed legacy workbook (no participant sheets). -/
def wbW : Workbook := ⟨[⟨"Main", dfMainW⟩]⟩

/-- The parse of `wbW` under year 2022. -/
def gdW : GameData :=
  { statements := [⟨"2022-1", 2022, "It rains", "Weather", "Alice"⟩]
  , predictions := []
  , outcomes := [⟨"2022-1", some true, Option.none⟩] }

/-- First file of the C2 witness directory. -/
def f1W : XFile := ⟨"a_2022", wbW⟩

/-- Second file of the C2 witness directory, mapping to the same year. -/
def f2W : XFile := ⟨"b_2022", wbW⟩

/-- A file with the same content but a different year in its name. -/
def f2W23 : XFile := ⟨"b_2023", wbW⟩

/-- The parse of `wbW` under year 2023. -/
def gdW23 : GameData :=
  { statements := [⟨"2023-1", 2023, "It rains", "Weather", "Alice"⟩]
  , predictions := []
  , outcomes := [⟨"2023-1", some true, Option.none⟩] }

/-- Statement list of the C7 fixture. -/
def stmtsC7 : List Statement := [⟨"2025-1", 2025, "It rains", "Weather", "Bob"⟩]

/-- A current-era workbook whose single participant sheet holds one broken
`#REF!` prediction row. -/
def wbC7 : Workbook :=
  ⟨[⟨"Statements", ⟨["Number"], []⟩⟩,
    ⟨"Alice", ⟨["Prediction", "Probability"],
               [[PyVal.str "#REF!", PyVal.float (.val (1 / 2))]]⟩⟩]⟩

/-- A dataset with two identical predictions that reference a statement id
that does not exist, carrying an out-of-range probability. -/
def gdC10 : GameData :=
  { statements := [⟨"2022-1", 2022, "It rains", "Weather", "Bob"⟩]
  , predictions := [⟨"2022-9", "Alice", 7⟩, ⟨"2022-9", "Alice", 7⟩]
  , outcomes := [] }

/-! ### Helper lemmas -/

theorem pyStrip_data (s : String) :
    (pyStrip s).data = List.rdropWhile isPySpace (s.data.dropWhile isPySpace) := rfl

theorem pyStrip_idem (s : String) : pyStrip (pyStrip s) = pyStrip s := by
  apply String.ext
  rw [pyStrip_data, pyStrip_data]
  have hd : (s.data.dropWhile isPySpace).dropWhile isPySpace = s.data.dropWhile isPySpace :=
    List.dropWhile_idempotent isPySpace s.data
  have h1 : (List.rdropWhile isPySpace (s.data.dropWhile isPySpace)).dropWhile isPySpace =
      List.rdropWhile isPySpace (s.data.dropWhile isPySpace) := by
    rcases hm : List.rdropWhile isPySpace (s.data.dropWhile isPySpace) with _ | ⟨a, t⟩
    · simp
    · have hpre : a :: t <+: s.data.dropWhile isPySpace := by
        rw [← hm]; exact List.rdropWhile_prefix isPySpace _
      rcases hdd : s.data.dropWhile isPySpace with _ | ⟨b, r⟩
      · simp [hdd] at hpre
      · have hab : a = b := (List.cons_prefix_cons.mp (hdd ▸ hpre)).1
        have hb : isPySpace b = false := by
          have hne : s.data.dropWhile isPySpace ≠ [] := by rw [hdd]; simp
          have h5 := List.head_dropWhile_not isPySpace s.data hne
          have h6 : (s.data.dropWhile isPySpace).head hne = b := by simp [hdd]
          rwa [h6] at h5
        rw [List.dropWhile_cons, hab, hb]
        simp
  rw [h1]
  exact List.rdropWhile_idempotent isPySpace _

theorem lookup_snd_mem {l : List (String × String)} {k v : String}
    (h : l.lookup k = some v) : v ∈ l.map Prod.snd := by
  induction l with
  | nil => simp [List.lookup] at h
  | cons p rest ih =>
    rcases p with ⟨k2, v2⟩
    rw [List.lookup] at h
    by_cases hk : k == k2
    · rw [hk] at h
      simp at h
      simp [h]
    · rw [Bool.not_eq_true] at hk
      rw [hk] at h
      simp [ih h]

theorem mapExcept_ok_map {α β γ : Type} {f : α → Except String β} {g : β → γ} {h : α → γ}
    (hf : ∀ a b, f a = .ok b → g b = h a) :
    ∀ {l : List α} {l2 : List β}, mapExcept f l = .ok l2 → l2.map g = l.map h := by
  intro l
  induction l with
  | nil => intro l2 hm; simp only [mapExcept] at hm; cases hm; simp
  | cons a l ih =>
    intro l2 hm
    simp only [mapExcept] at hm
    cases hfa : f a with
    | error e => rw [hfa] at hm; cases hm
    | ok b =>
      rw [hfa] at hm
      cases hml : mapExcept f l with
      | error e => rw [hml] at hm; cases hm
      | ok bs =>
        rw [hml] at hm
        cases hm
        simp [ih hml, hf a b hfa]

theorem mapExcept_ok_mem {α β : Type} {f : α → Except String β} :
    ∀ {l : List α} {l2 : List β}, mapExcept f l = .ok l2 → ∀ b ∈ l2, ∃ a ∈ l, f a = .ok b := by
  intro l
  induction l with
  | nil => intro l2 hm; simp only [mapExcept] at hm; cases hm; simp
  | cons a l ih =>
    intro l2 hm
    simp only [mapExcept] at hm
    cases hfa : f a with
    | error e => rw [hfa] at hm; cases hm
    | ok b =>
      rw [hfa] at hm
      cases hml : mapExcept f l with
      | error e => rw [hml] at hm; cases hm
      | ok bs =>
        rw [hml] at hm
        cases hm
        intro c hc
        rcases List.mem_cons.mp hc with hc | hc
        · subst hc; exact ⟨a, by simp, hfa⟩
        · rcases ih hml c hc with ⟨a2, ha2, hfa2⟩
          exact ⟨a2, by simp [ha2], hfa2⟩

theorem outcomeFor_ok_fields {df : DataFrame} {idCol : String} {ocol : Option String}
    {stmt : Statement} {o : Outcome} (h : outcomeFor df idCol ocol stmt = .ok o) :
    o.statement_id = stmt.id ∧ o.date = Option.none := by
  unfold outcomeFor at h
  split at h
  · cases h
  · split at h
    · cases h
    · rw [Except.ok.injEq] at h
      rw [← h]
      exact ⟨rfl, rfl⟩

theorem getSheet_isSome_of_mem {wb : Workbook} {n : String} (h : n ∈ sheetnames wb) :
    ∃ df, getSheet wb n = some df := by
  unfold sheetnames at h
  rcases List.mem_map.mp h with ⟨s, hs, hn⟩
  unfold getSheet
  have : (wb.sheets.find? (fun s => s.name == n)).isSome := by
    rw [List.find?_isSome]
    exact ⟨s, hs, by simp [hn]⟩
  rcases Option.isSome_iff_exists.mp this with ⟨s2, hs2⟩
  exact ⟨s2.df, by rw [hs2]; rfl⟩

theorem checkDupes_ok_superset {y : Nat} :
    ∀ {stmts : List Statement} {seen seen2 : List String},
      checkDupes y stmts seen = .ok seen2 →
      (∀ sid ∈ seen, sid ∈ seen2) ∧ (∀ stmt ∈ stmts, stmt.id ∈ seen2) := by
  intro stmts
  induction stmts with
  | nil =>
    intro seen seen2 h
    simp only [checkDupes] at h
    cases h
    exact ⟨fun sid hs => hs, by simp⟩
  | cons stmt rest ih =>
    intro seen seen2 h
    simp only [checkDupes] at h
    by_cases hmem : stmt.id ∈ seen
    · rw [if_pos hmem] at h; cases h
    · rw [if_neg hmem] at h
      rcases ih h with ⟨h1, h2⟩
      refine ⟨fun sid hs => h1 sid (by simp [hs]), ?_⟩
      intro s hs
      rcases List.mem_cons.mp hs with hs | hs
      · subst hs; exact h1 s.id (by simp)
      · exact h2 s hs

theorem checkDupes_error_of_mem {y : Nat} :
    ∀ {stmts : List Statement} {seen : List String},
      (∃ stmt ∈ stmts, stmt.id ∈ seen) →
      ∃ sid, checkDupes y stmts seen =
        .error ("Duplicate statement ID " ++ sid ++ " found in year " ++ toString y) := by
  intro stmts
  induction stmts with
  | nil => intro seen h; simp at h
  | cons stmt rest ih =>
    intro seen h
    by_cases hmem : stmt.id ∈ seen
    · exact ⟨stmt.id, by simp only [checkDupes]; rw [if_pos hmem]⟩
    · rcases h with ⟨w, hw, hws⟩
      rcases List.mem_cons.mp hw with hw | hw
      · subst hw; exact absurd hws hmem
      · rcases @ih (stmt.id :: seen) ⟨w, hw, List.mem_cons_of_mem _ hws⟩ with ⟨sid, hsid⟩
        exact ⟨sid, by simp only [checkDupes]; rw [if_neg hmem]; exact hsid⟩

theorem checkDupes_ok_of_nodup {y : Nat} :
    ∀ {stmts : List Statement} {seen : List String},
      (stmts.map (fun stmt => stmt.id)).Nodup →
      (∀ stmt ∈ stmts, stmt.id ∉ seen) →
      ∃ seen2, checkDupes y stmts seen = .ok seen2 := by
  intro stmts
  induction stmts with
  | nil => intro seen _ _; exact ⟨seen, rfl⟩
  | cons stmt rest ih =>
    intro seen hnd hdisj
    have hmem : stmt.id ∉ seen := hdisj stmt (by simp)
    have hnd2 : (rest.map (fun stmt => stmt.id)).Nodup := (List.nodup_cons.mp hnd).2
    have hhd : stmt.id ∉ rest.map (fun stmt => stmt.id) := (List.nodup_cons.mp hnd).1
    rcases @ih (stmt.id :: seen) hnd2 (fun s hs => by
      intro hc
      rcases List.mem_cons.mp hc with hc | hc
      · exact hhd (by rw [← hc]; exact List.mem_map_of_mem (fun stmt => stmt.id) hs)
      · exact hdisj s (by simp [hs]) hc) with ⟨seen2, hs2⟩
    exact ⟨seen2, by simp only [checkDupes]; rw [if_neg hmem]; exact hs2⟩

theorem processFile_error_of_no_token {acc : GameData × List (Nat × List String)}
    {f : XFile} (h : findYearToken f.stem.data = Option.none) :
    processFile acc f =
      .error ("Error parsing " ++ fname f ++ ": " ++
              ("Cannot extract year from filename: " ++ fname f)) := by
  unfold processFile parse_xlsx_file wrapErr
  rw [h]

theorem foldExcept_processFile_error :
    ∀ (files : List XFile) (acc : GameData × List (Nat × List String)),
      (∃ f ∈ files, findYearToken f.stem.data = Option.none) →
      ∃ e, foldExcept processFile acc files = .error e := by
  intro files
  induction files with
  | nil => intro acc h; simp at h
  | cons f rest ih =>
    intro acc h
    by_cases hf : findYearToken f.stem.data = Option.none
    · refine ⟨"Error parsing " ++ fname f ++ ": " ++
        ("Cannot extract year from filename: " ++ fname f), ?_⟩
      simp only [foldExcept]
      rw [processFile_error_of_no_token hf]
    · cases hpf : processFile acc f with
      | error e => exact ⟨e, by simp only [foldExcept]; rw [hpf]⟩
      | ok acc2 =>
        rcases h with ⟨w, hw, hwt⟩
        rcases List.mem_cons.mp hw with hw | hw
        · subst hw; exact absurd hwt hf
        · rcases ih acc2 ⟨w, hw, hwt⟩ with ⟨e, he⟩
          exact ⟨e, by simp only [foldExcept]; rw [hpf]; exact he⟩

theorem predLoop_count (validIds : List String) (statements : List Statement) :
    ∀ (ps : List Prediction) (seen : List (String × String)) (pby : List (Nat × List String)),
      (predLoop validIds statements ps seen pby).1.countP isNonexistentErr =
        ps.countP (fun p => decide (p.statement_id ∉ validIds)) := by
  intro ps
  induction ps with
  | nil => intro seen pby; simp [predLoop]
  | cons p rest ih =>
    intro seen pby
    by_cases hv : p.statement_id ∈ validIds
    · simp only [predLoop]
      rw [if_pos hv]
      simp only [List.countP_cons, List.countP_append]
      rw [ih]
      have he1 : ∀ b : Bool, List.countP isNonexistentErr
          (if b then ([] : List PredError)
           else [.invalidProbability p.probability p.participant p.statement_id]) = 0 := by
        intro b; cases b <;> simp [isNonexistentErr]
      have he2 : ∀ b : Bool, List.countP isNonexistentErr
          (if b then [PredError.duplicatePrediction p.participant p.statement_id]
           else ([] : List PredError)) = 0 := by
        intro b; cases b <;> simp [isNonexistentErr]
      simp [List.countP_append, he1, he2, hv, isNonexistentErr]
    · simp only [predLoop]
      rw [if_neg hv]
      simp [List.countP_cons, isNonexistentErr, ih, hv]

theorem mem_ite_list {α : Type} {c : Prop} [Decidable c] {x : α} {l1 l2 : List α}
    (h : x ∈ (if c then l1 else l2)) : x ∈ l1 ∨ x ∈ l2 := by
  split at h
  · exact Or.inl h
  · exact Or.inr h

theorem mem_ite_list_bool {α : Type} {b : Bool} {x : α} {l1 l2 : List α}
    (h : x ∈ (if b then l1 else l2)) : x ∈ l1 ∨ x ∈ l2 := by
  cases b
  · exact Or.inr h
  · exact Or.inl h

theorem predLoop_no_checks_for_invalid (validIds : List String)
    (statements : List Statement) (sid : String) (hsid : sid ∉ validIds) :
    ∀ (ps : List Prediction) (seen : List (String × String)) (pby : List (Nat × List String)),
      (∀ q who, PredError.invalidProbability q who sid ∉ (predLoop validIds statements ps seen pby).1) ∧
      (∀ who, PredError.duplicatePrediction who sid ∉ (predLoop validIds statements ps seen pby).1) := by
  intro ps
  induction ps with
  | nil => intro seen pby; simp [predLoop]
  | cons p rest ih =>
    intro seen pby
    by_cases hv : p.statement_id ∈ validIds
    · have hne : p.statement_id ≠ sid := fun hc => hsid (hc ▸ hv)
      simp only [predLoop]
      rw [if_pos hv]
      constructor
      · intro q who hmem
        simp only [List.mem_append] at hmem
        rcases hmem with (hmem | hmem) | hmem
        · rcases mem_ite_list_bool hmem with h0 | h0
          · simp at h0
          · simp at h0
            exact hne h0.2.2.symm
        · rcases mem_ite_list hmem with h0 | h0
          · simp at h0
          · simp at h0
        · exact (ih _ _).1 q who hmem
      · intro who hmem
        simp only [List.mem_append] at hmem
        rcases hmem with (hmem | hmem) | hmem
        · rcases mem_ite_list_bool hmem with h0 | h0
          · simp at h0
          · simp at h0
        · rcases mem_ite_list hmem with h0 | h0
          · simp at h0
            exact hne h0.2.symm
          · simp at h0
        · exact (ih _ _).2 who hmem
    · simp only [predLoop]
      rw [if_neg hv]
      constructor
      · intro q who hmem
        rcases List.mem_cons.mp hmem with hmem | hmem
        · cases hmem
        · exact (ih _ _).1 q who hmem
      · intro who hmem
        rcases List.mem_cons.mp hmem with hmem | hmem
        · cases hmem
        · exact (ih _ _).2 who hmem

theorem addParticipant_mem {pby : List (Nat × List String)} {y : Nat} {who who2 : String}
    (h : who2 ∈ pbyParticipants (addParticipant pby y who)) :
    who2 ∈ pbyParticipants pby ∨ who2 = who := by
  induction pby with
  | nil =>
    simp only [addParticipant, pbyParticipants, List.map_cons, List.map_nil,
      List.flatten, List.append_nil] at h
    simp at h
    exact Or.inr h
  | cons p rest ih =>
    simp only [addParticipant] at h
    by_cases hy : p.1 = y
    · rw [if_pos hy] at h
      simp only [pbyParticipants, List.map_cons, List.flatten_cons, List.mem_append] at h ⊢
      rcases h with h | h
      · by_cases hwm : who ∈ p.2
        · rw [if_pos hwm] at h; exact Or.inl (Or.inl h)
        · rw [if_neg hwm] at h
          rcases List.mem_append.mp h with h | h
          · exact Or.inl (Or.inl h)
          · simp at h; exact Or.inr h
      · exact Or.inl (Or.inr h)
    · rw [if_neg hy] at h
      simp only [pbyParticipants, List.map_cons, List.flatten_cons, List.mem_append] at h ⊢
      rcases h with h | h
      · exact Or.inl (Or.inl h)
      · rcases ih h with h2 | h2
        · exact Or.inl (Or.inr h2)
        · exact Or.inr h2

theorem predLoop_pby_participants (validIds : List String) (statements : List Statement) :
    ∀ (ps : List Prediction) (seen : List (String × String))
      (pby : List (Nat × List String)) (who : String),
      who ∈ pbyParticipants (predLoop validIds statements ps seen pby).2 →
      who ∈ pbyParticipants pby ∨ ∃ p ∈ ps, p.participant = who ∧ p.statement_id ∈ validIds := by
  intro ps
  induction ps with
  | nil => intro seen pby who h; exact Or.inl h
  | cons p rest ih =>
    intro seen pby who h
    by_cases hv : p.statement_id ∈ validIds
    · simp only [predLoop] at h
      rw [if_pos hv] at h
      rcases ih _ _ who h with h2 | h2
      · rcases addParticipant_mem h2 with h3 | h3
        · exact Or.inl h3
        · exact Or.inr ⟨p, by simp, h3.symm, hv⟩
      · rcases h2 with ⟨p2, hp2, hw, hv2⟩
        exact Or.inr ⟨p2, by simp [hp2], hw, hv2⟩
    · simp only [predLoop] at h
      rw [if_neg hv] at h
      rcases ih _ _ who h with h2 | h2
      · exact Or.inl h2
      · rcases h2 with ⟨p2, hp2, hw, hv2⟩
        exact Or.inr ⟨p2, by simp [hp2], hw, hv2⟩

theorem completenessWarnings_participant {gd : GameData}
    {pby : List (Nat × List String)} {w : PredWarning}
    (h : w ∈ completenessWarnings gd pby) : w.participant ∈ pbyParticipants pby := by
  unfold completenessWarnings at h
  rcases List.mem_flatten.mp h with ⟨l, hl, hwl⟩
  rcases List.mem_map.mp hl with ⟨entry, hentry, hle⟩
  rw [← hle] at hwl
  rcases List.mem_filterMap.mp hwl with ⟨who, hwho, hsome⟩
  have hwp : w.participant = who := by
    dsimp only at hsome
    split at hsome
    · cases hsome
    · rw [Option.some.injEq] at hsome
      rw [← hsome]
  rw [hwp]
  exact List.mem_flatten.mpr ⟨entry.2, List.mem_map_of_mem Prod.snd hentry, hwho⟩

/-! ### Claim theorems -/

/-- C9: when a workbook's sheet names include both "Statements" and one of
"Main" or "Input" — markers of both eras at once — `detect_structure`
classifies the file as CURRENT: the "Statements" marker takes precedence. -/
theorem detect_structure_statements_precedence (wb : Workbook)
    (hs : "Statements" ∈ sheetnames wb)
    (hm : "Main" ∈ sheetnames wb ∨ "Input" ∈ sheetnames wb) :
    detect_structure wb = .ok .CURRENT := by
  unfold detect_structure
  rw [if_pos hs]

/-- Witness for C9 at a workbook holding both a "Statements" and a "Main"
sheet. -/
theorem detect_structure_statements_precedence_witness :
    detect_structure wbBothMarkers = .ok .CURRENT :=
  detect_structure_statements_precedence wbBothMarkers (by decide) (Or.inl (by decide))

/-- C3: `parse_outcome` is total on its documented domain and fails
elsewhere — `None` and NaN are unresolved; strings trimming to "" or "-" are
unresolved, to "0"/"0.0" false, to "1"/"1.0" true, and all other strings
fail; the ints and floats 0 and 1 map to false and true and every other
numeric value fails; every other input type fails. -/
theorem parse_outcome_total_on_domain :
    (parse_outcome PyVal.none = .ok Option.none) ∧
    (parse_outcome (.float .nan) = .ok Option.none) ∧
    (∀ s : String, (pyStrip s = "" ∨ pyStrip s = "-") →
      parse_outcome (.str s) = .ok Option.none) ∧
    (∀ s : String, (pyStrip s = "0" ∨ pyStrip s = "0.0") →
      parse_outcome (.str s) = .ok (some false)) ∧
    (∀ s : String, (pyStrip s = "1" ∨ pyStrip s = "1.0") →
      parse_outcome (.str s) = .ok (some true)) ∧
    (∀ s : String, pyStrip s ∉ (["", "-", "0", "0.0", "1", "1.0"] : List String) →
      ∃ e, parse_outcome (.str s) = .error e) ∧
    (parse_outcome (.int 0) = .ok (some false)) ∧
    (parse_outcome (.int 1) = .ok (some true)) ∧
    (parse_outcome (.float (.val 0)) = .ok (some false)) ∧
    (parse_outcome (.float (.val 1)) = .ok (some true)) ∧
    (∀ n : Int, n ≠ 0 → n ≠ 1 → ∃ e, parse_outcome (.int n) = .error e) ∧
    (∀ q : Rat, q ≠ 0 → q ≠ 1 → ∃ e, parse_outcome (.float (.val q)) = .error e) ∧
    (∀ t : String, ∃ e, parse_outcome (.other t) = .error e) := by
  refine ⟨rfl, rfl, ?_, ?_, ?_, ?_, rfl, rfl, by norm_num [parse_outcome], by norm_num [parse_outcome], ?_, ?_,
    fun t => ⟨_, rfl⟩⟩
  · intro s h
    rcases h with h | h <;> simp [parse_outcome, h]
  · intro s h
    rcases h with h | h <;> simp [parse_outcome, h]
  · intro s h
    rcases h with h | h <;> simp [parse_outcome, h]
  · intro s h
    simp only [List.mem_cons, List.not_mem_nil, or_false] at h
    push_neg at h
    obtain ⟨h1, h2, h3, h4, h5, h6⟩ := h
    refine ⟨"Unable to parse outcome value: " ++ s, ?_⟩
    simp [parse_outcome, h1, h2, h3, h4, h5, h6]
  · intro n h0 h1
    refine ⟨"Numeric outcome must be 0 or 1", ?_⟩
    simp [parse_outcome, h0, h1]
  · intro q h0 h1
    refine ⟨"Numeric outcome must be 0 or 1", ?_⟩
    simp [parse_outcome, h0, h1]

/-- Witness for C3 exercising each guarded clause at concrete inputs. -/
theorem parse_outcome_total_on_domain_witness :
    parse_outcome (.str " - ") = .ok Option.none ∧
    parse_outcome (.str " 0.0 ") = .ok (some false) ∧
    parse_outcome (.str "1") = .ok (some true) ∧
    (∃ e, parse_outcome (.str "maybe") = .error e) ∧
    (∃ e, parse_outcome (.int 7) = .error e) ∧
    (∃ e, parse_outcome (.float (.val (mkRat 1 2))) = .error e) ∧
    (∃ e, parse_outcome (.other "date") = .error e) :=
  ⟨parse_outcome_total_on_domain.2.2.1 " - " (Or.inr (by decide)),
   parse_outcome_total_on_domain.2.2.2.1 " 0.0 " (Or.inr (by decide)),
   parse_outcome_total_on_domain.2.2.2.2.1 "1" (Or.inl (by decide)),
   parse_outcome_total_on_domain.2.2.2.2.2.1 "maybe" (by decide),
   parse_outcome_total_on_domain.2.2.2.2.2.2.2.2.2.2.1 7 (by decide) (by decide),
   parse_outcome_total_on_domain.2.2.2.2.2.2.2.2.2.2.2.1 (mkRat 1 2) (by decide) (by decide),
   parse_outcome_total_on_domain.2.2.2.2.2.2.2.2.2.2.2.2 "date"⟩

/-- C4: `sanitize_probability` never fails (it is total by type), returns
exactly `0.5` on every input on which `validate_probability` fails, and
agrees with `validate_probability` on every input on which the latter
succeeds. -/
theorem sanitize_probability_matches_validate (v : PyVal) :
    (∀ q : Rat, validate_probability v = .ok q → sanitize_probability v = q) ∧
    ((∃ e, validate_probability v = .error e) → sanitize_probability v = 1 / 2) := by
  have main : ∀ w : PyVal, w ≠ PyVal.none →
      (validate_probability w =
        (match tryFloat w with
         | Option.none => .error "Cannot convert value to probability"
         | some .nan => .error "Probability cannot be NaN"
         | some (.val q) =>
             if 0 ≤ q && q ≤ 1 then .ok q
             else .error "Probability must be in range [0.0, 1.0]")) ∧
      (sanitize_probability w =
        (match tryFloat w with
         | Option.none => 1 / 2
         | some .nan => 1 / 2
         | some (.val q) => if 0 ≤ q && q ≤ 1 then q else 1 / 2)) := by
    intro w hw
    cases w with
    | none => exact absurd rfl hw
    | str s => exact ⟨rfl, rfl⟩
    | int n => exact ⟨rfl, rfl⟩
    | float f => exact ⟨rfl, rfl⟩
    | other t => exact ⟨rfl, rfl⟩
  by_cases hv : v = PyVal.none
  · subst hv
    refine ⟨fun q h => ?_, fun _ => rfl⟩
    cases h
  · obtain ⟨hval, hsan⟩ := main v hv
    constructor
    · intro q h
      rw [hval] at h
      rw [hsan]
      cases ht : tryFloat v with
      | none => rw [ht] at h; cases h
      | some f =>
        rw [ht] at h
        cases f with
        | nan => cases h
        | val r =>
          dsimp only at h ⊢
          split at h
          · rw [Except.ok.injEq] at h
            rename_i hc
            rw [if_pos hc]
            exact h
          · cases h
    · intro hex
      rcases hex with ⟨e, h⟩
      rw [hval] at h
      rw [hsan]
      cases ht : tryFloat v with
      | none => rfl
      | some f =>
        rw [ht] at h
        cases f with
        | nan => rfl
        | val r =>
          dsimp only at h ⊢
          split at h
          · cases h
          · rename_i hc
            rw [if_neg hc]

/-- Witness for C4: a valid probability string passes through and an invalid
one collapses to one half. -/
theorem sanitize_probability_matches_validate_witness :
    sanitize_probability (.float (.val (mkRat 1 4))) = mkRat 1 4 ∧
    sanitize_probability (.str "huge") = 1 / 2 ∧
    sanitize_probability (.float (.val 2)) = 1 / 2 :=
  ⟨(sanitize_probability_matches_validate (.float (.val (mkRat 1 4)))).1 (mkRat 1 4) (by decide),
   (sanitize_probability_matches_validate (.str "huge")).2
     ⟨"Cannot convert value to probability", by decide⟩,
   (sanitize_probability_matches_validate (.float (.val 2))).2
     ⟨"Probability must be in range [0.0, 1.0]", by decide⟩⟩

/-- C8: `normalize_participant_name` is idempotent, case-insensitive on the
alias-table keys (all casing variants of a key map to the same canonical
value, e.g. BOOF/boof/Boof all map to Bruce), and returns any unmatched input
trimmed but otherwise unchanged. -/
theorem normalize_participant_name_eq (name : String) :
    normalize_participant_name name =
      (match name_mapping.lookup (pyLower (pyStrip name)) with
       | some canonical => canonical
       | Option.none => pyStrip name) := rfl

theorem normalize_participant_name_props :
    (∀ x, normalize_participant_name (normalize_participant_name x) =
      normalize_participant_name x) ∧
    (∀ x y, pyLower (pyStrip x) = pyLower (pyStrip y) →
      (name_mapping.lookup (pyLower (pyStrip x))).isSome = true →
      normalize_participant_name x = normalize_participant_name y) ∧
    (normalize_participant_name "BOOF" = "Bruce" ∧
      normalize_participant_name "boof" = "Bruce" ∧
      normalize_participant_name "Boof" = "Bruce" ∧
      normalize_participant_name "Bruce" = "Bruce") ∧
    (∀ x, name_mapping.lookup (pyLower (pyStrip x)) = Option.none →
      normalize_participant_name x = pyStrip x) := by
  have unm : ∀ x, name_mapping.lookup (pyLower (pyStrip x)) = Option.none →
      normalize_participant_name x = pyStrip x := by
    intro x h
    rw [normalize_participant_name_eq, h]
  refine ⟨?_, ?_, ⟨by decide, by decide, by decide, by decide⟩, unm⟩
  · intro x
    cases hl : name_mapping.lookup (pyLower (pyStrip x)) with
    | none =>
      have h1 := unm x hl
      rw [h1]
      have hl2 : name_mapping.lookup (pyLower (pyStrip (pyStrip x))) = Option.none := by
        rw [pyStrip_idem]; exact hl
      rw [unm (pyStrip x) hl2, pyStrip_idem]
    | some c =>
      have hx : normalize_participant_name x = c := by
        rw [normalize_participant_name_eq, hl]
      rw [hx]
      have hc := lookup_snd_mem hl
      simp [name_mapping] at hc
      rcases hc with h | h | h <;> subst h <;> decide
  · intro x y hxy hsome
    rcases Option.isSome_iff_exists.mp hsome with ⟨c, hc⟩
    have hx : normalize_participant_name x = c := by
      rw [normalize_participant_name_eq, hc]
    have hy2 : name_mapping.lookup (pyLower (pyStrip y)) = some c := by
      rw [← hxy]; exact hc
    have hy : normalize_participant_name y = c := by
      rw [normalize_participant_name_eq, hy2]
    rw [hx, hy]

/-- Witness for C8: idempotence and case-insensitivity at an accented key,
and trim-only behaviour at an unmatched name. -/
theorem normalize_participant_name_props_witness :
    normalize_participant_name (normalize_participant_name "GAËL") =
      normalize_participant_name "GAËL" ∧
    normalize_participant_name "GAËL" = normalize_participant_name "gaël" ∧
    normalize_participant_name "  Zoe " = pyStrip "  Zoe " :=
  ⟨normalize_participant_name_props.1 "GAËL",
   normalize_participant_name_props.2.1 "GAËL" "gaël" (by decide) (by decide),
   normalize_participant_name_props.2.2.2 "  Zoe " (by decide)⟩

/-- Characterization of `processRow2025` with the let-binding expanded. -/
theorem processRow2025_eq (stmts : List Statement) (participant sheetName : String)
    (jPred jProb : Nat) (r : List PyVal) :
    processRow2025 stmts participant sheetName jPred jProb r =
      (if strStartsWith (pyStrip (pyStr (cellAt r jPred))) "#REF!" ||
          pyStrip (pyStr (cellAt r jPred)) == "#REF!" then .ok Option.none
       else
        match textToStmt stmts
            (normalize_text_for_matching (pyStrip (pyStr (cellAt r jPred)))) with
        | Option.none =>
            .error ("Cannot match prediction text in sheet " ++ sheetName ++ ": " ++
                    pyStrip (pyStr (cellAt r jPred)))
        | some stmt =>
            .ok (some { statement_id := stmt.id
                      , participant := participant
                      , probability := sanitize_probability (cellAt r jProb) })) := rfl

/-- C7: in current-era prediction extraction, every row whose stripped
Prediction cell text equals or starts with "#REF!" is skipped silently (no
prediction, no error), every other row is matched against the statement-text
table (a prediction on a hit, an error on a miss), and a participant sheet
holding only a "#REF!" row contributes zero predictions with no error. -/
theorem predictions2025_ref_rows_skipped :
    (∀ stmts participant sheetName jPred jProb (r : List PyVal),
      (pyStrip (pyStr (cellAt r jPred)) = "#REF!" ∨
        strStartsWith (pyStrip (pyStr (cellAt r jPred))) "#REF!" = true) →
      processRow2025 stmts participant sheetName jPred jProb r = .ok Option.none) ∧
    (∀ stmts participant sheetName jPred jProb (r : List PyVal),
      strStartsWith (pyStrip (pyStr (cellAt r jPred))) "#REF!" = false →
      (∃ stmt, textToStmt stmts
          (normalize_text_for_matching (pyStrip (pyStr (cellAt r jPred)))) = some stmt ∧
        processRow2025 stmts participant sheetName jPred jProb r =
          .ok (some ⟨stmt.id, participant,
                sanitize_probability (cellAt r jProb)⟩)) ∨
      (textToStmt stmts
          (normalize_text_for_matching (pyStrip (pyStr (cellAt r jPred)))) = Option.none ∧
        ∃ e, processRow2025 stmts participant sheetName jPred jProb r = .error e)) ∧
    extract_predictions_2025 wbC7 stmtsC7 = .ok [] := by
  refine ⟨?_, ?_, by decide⟩
  · intro stmts participant sheetName jPred jProb r h
    rw [processRow2025_eq]
    rcases h with h | h
    · rw [if_pos]
      simp [h]
    · rw [if_pos]
      simp [h]
  · intro stmts participant sheetName jPred jProb r h
    have hne : (pyStrip (pyStr (cellAt r jPred)) == "#REF!") = false := by
      by_cases hb : (pyStrip (pyStr (cellAt r jPred)) == "#REF!") = true
      · have ht : pyStrip (pyStr (cellAt r jPred)) = "#REF!" := eq_of_beq hb
        rw [ht] at h
        exact absurd h (by decide)
      · rwa [Bool.not_eq_true] at hb
    rw [processRow2025_eq, if_neg (by simp [h, hne])]
    cases hts : textToStmt stmts
        (normalize_text_for_matching (pyStrip (pyStr (cellAt r jPred)))) with
    | none => exact Or.inr ⟨rfl, _, rfl⟩
    | some stmt => exact Or.inl ⟨stmt, rfl, rfl⟩

/-- Witness for C7: a row whose stripped text starts with "#REF!" is skipped,
the literal "#REF!" row is skipped, and a clean row is matched against the
statement table. -/
theorem predictions2025_ref_rows_skipped_witness :
    processRow2025 stmtsC7 "Alice" "Alice" 0 1 [PyVal.str " #REF! broken"] = .ok Option.none ∧
    processRow2025 stmtsC7 "Alice" "Alice" 0 1 [PyVal.str "#REF!"] = .ok Option.none ∧
    ((∃ stmt, textToStmt stmtsC7 (normalize_text_for_matching
        (pyStrip (pyStr (cellAt [PyVal.str "It rains."] 0)))) = some stmt ∧
      processRow2025 stmtsC7 "Alice" "Alice" 0 1 [PyVal.str "It rains."] =
        .ok (some ⟨stmt.id, "Alice",
              sanitize_probability (cellAt [PyVal.str "It rains."] 1)⟩)) ∨
     (textToStmt stmtsC7 (normalize_text_for_matching
        (pyStrip (pyStr (cellAt [PyVal.str "It rains."] 0)))) = Option.none ∧
      ∃ e, processRow2025 stmtsC7 "Alice" "Alice" 0 1 [PyVal.str "It rains."] = .error e)) :=
  ⟨predictions2025_ref_rows_skipped.1 stmtsC7 "Alice" "Alice" 0 1 _ (Or.inr (by decide)),
   predictions2025_ref_rows_skipped.1 stmtsC7 "Alice" "Alice" 0 1 _ (Or.inl (by decide)),
   predictions2025_ref_rows_skipped.2.1 stmtsC7 "Alice" "Alice" 0 1 _ (by decide)⟩

/-- C5: whenever `extract_outcomes` returns, it returns exactly one Outcome
per input statement — in order, keyed by that statement's id — every
returned Outcome has a null date, and a statement whose local id matches no
row of the chosen sheet yields an unresolved Outcome rather than an error. -/
theorem extract_outcomes_one_per_statement :
    (∀ wb stmts outs, extract_outcomes wb stmts = .ok outs →
      outs.map (fun o => o.statement_id) = stmts.map (fun stmt => stmt.id) ∧
      ∀ o ∈ outs, o.date = Option.none) ∧
    (∀ df idCol ocol stmt n j,
      pyParseIntStr (localId stmt.id) = some n →
      colIndex df idCol = some j →
      df.rows.find? (fun r => pyEqInt (cellAt r j) n) = Option.none →
      outcomeFor df idCol ocol stmt = .ok ⟨stmt.id, Option.none, Option.none⟩) := by
  constructor
  · intro wb stmts outs h
    unfold extract_outcomes at h
    cases hc : chooseOutcomeSheet wb with
    | error e => rw [hc] at h; cases h
    | ok trip =>
      rw [hc] at h
      rcases trip with ⟨df, ocol, idCol⟩
      constructor
      · exact mapExcept_ok_map (fun a b hab => (outcomeFor_ok_fields hab).1) h
      · intro o ho
        rcases mapExcept_ok_mem h o ho with ⟨stmt, _, hstmt⟩
        exact (outcomeFor_ok_fields hstmt).2
  · intro df idCol ocol stmt n j h1 h2 h3
    have hfv : findOutcomeValue df idCol ocol stmt.id = .ok PyVal.none := by
      unfold findOutcomeValue
      simp only [h1, h2, h3]
    unfold outcomeFor
    rw [hfv]
    rfl

/-- Witness for C5: a full extraction over a two-statement file, and an
unmatched statement receiving an unresolved placeholder outcome. -/
theorem extract_outcomes_one_per_statement_witness :
    ((extract_outcomes wbW gdW.statements = .ok gdW.outcomes) ∧
      (gdW.outcomes.map (fun o => o.statement_id) =
        gdW.statements.map (fun stmt => stmt.id) ∧
       ∀ o ∈ gdW.outcomes, o.date = Option.none)) ∧
    outcomeFor dfMainW "ID" (some "Outcome") ⟨"2022-7", 2022, "t", "c", "p"⟩ =
      .ok ⟨"2022-7", Option.none, Option.none⟩ :=
  ⟨⟨by decide, extract_outcomes_one_per_statement.1 wbW gdW.statements gdW.outcomes (by decide)⟩,
   extract_outcomes_one_per_statement.2 dfMainW "ID" (some "Outcome") ⟨"2022-7", 2022, "t", "c", "p"⟩
     7 0 (by decide) (by decide) (by decide)⟩

/-- C1 counterexample: a LEGACY workbook whose primary sheet is "Input" with
no outcome column at all, next to a "Summary" sheet carrying the 2022-style
outcome header.  The claim says `extract_outcomes` re-reads outcomes from
"Summary" for every LEGACY file with an empty-or-absent outcome column, but
the code keeps the Input sheet (and a None column): the fallback fires only
when the primary sheet is named "Main" (and a "Summary" sheet exists). -/
theorem legacy_summary_fallback_counterexample :
    detect_structure wbC1 = .ok .LEGACY ∧
    legacyOutcomeCol dfInputC1 = Option.none ∧
    outcomeColEmpty dfInputC1 (legacyOutcomeCol dfInputC1) = true ∧
    "Summary" ∈ sheetnames wbC1 ∧
    "Outcome (0 = false, 1 = true)" ∈ dfSummaryC1.cols ∧
    getSheet wbC1 "Summary" = some dfSummaryC1 ∧
    chooseOutcomeSheet wbC1 = .ok (dfInputC1, Option.none, "ID") ∧
    chooseOutcomeSheet wbC1 ≠ .ok (dfSummaryC1, some "Outcome (0 = false, 1 = true)", "ID") ∧
    extract_outcomes wbC1 [⟨"2022-1", 2022, "t", "c", "p"⟩] = .error "KeyError: None" := by
  decide

/-- C1 (amended): for every LEGACY workbook whose primary sheet is "Main"
with its outcome column entirely empty or absent, and which has a "Summary"
sheet, `extract_outcomes` re-reads from the Summary sheet, selecting its
outcome column by trying "Outcome (0 = false, 1 = true)", then
"Outcome (1 = true, 0 = false)", then "Outcome", in that priority order. -/
theorem legacy_summary_fallback (wb : Workbook) (df : DataFrame)
    (hdet : detect_structure wb = .ok .LEGACY)
    (hmain : "Main" ∈ sheetnames wb)
    (hdf : getSheet wb "Main" = some df)
    (hempty : outcomeColEmpty df (legacyOutcomeCol df) = true)
    (hsum : "Summary" ∈ sheetnames wb) :
    ∃ df2, getSheet wb "Summary" = some df2 ∧
      chooseOutcomeSheet wb = .ok (df2, some (summaryOutcomeCol df2), "ID") ∧
      ("Outcome (0 = false, 1 = true)" ∈ df2.cols →
        summaryOutcomeCol df2 = "Outcome (0 = false, 1 = true)") ∧
      ("Outcome (0 = false, 1 = true)" ∉ df2.cols →
        "Outcome (1 = true, 0 = false)" ∈ df2.cols →
        summaryOutcomeCol df2 = "Outcome (1 = true, 0 = false)") ∧
      ("Outcome (0 = false, 1 = true)" ∉ df2.cols →
        "Outcome (1 = true, 0 = false)" ∉ df2.cols →
        summaryOutcomeCol df2 = "Outcome") := by
  rcases getSheet_isSome_of_mem hsum with ⟨df2, hdf2⟩
  refine ⟨df2, hdf2, ?_, ?_, ?_, ?_⟩
  · unfold chooseOutcomeSheet
    rw [hdet]
    dsimp only
    unfold legacyPrimary
    rw [if_pos hmain]
    dsimp only
    rw [hdf]
    dsimp only
    rw [if_pos (by simp [hempty])]
    rw [if_pos hsum]
    rw [hdf2]
  · intro h1
    unfold summaryOutcomeCol
    rw [if_pos h1]
  · intro h1 h2
    unfold summaryOutcomeCol
    rw [if_neg h1, if_pos h2]
  · intro h1 h2
    unfold summaryOutcomeCol
    rw [if_neg h1, if_neg h2]

/-- Witness for C1 (amended) at a workbook whose Main outcome column is
all-NaN and whose Summary sheet carries the 2022 outcome header. -/
theorem legacy_summary_fallback_witness :
    ∃ df2, getSheet wbC1W "Summary" = some df2 ∧
      chooseOutcomeSheet wbC1W = .ok (df2, some (summaryOutcomeCol df2), "ID") ∧
      ("Outcome (0 = false, 1 = true)" ∈ df2.cols →
        summaryOutcomeCol df2 = "Outcome (0 = false, 1 = true)") ∧
      ("Outcome (0 = false, 1 = true)" ∉ df2.cols →
        "Outcome (1 = true, 0 = false)" ∈ df2.cols →
        summaryOutcomeCol df2 = "Outcome (1 = true, 0 = false)") ∧
      ("Outcome (0 = false, 1 = true)" ∉ df2.cols →
        "Outcome (1 = true, 0 = false)" ∉ df2.cols →
        summaryOutcomeCol df2 = "Outcome") :=
  legacy_summary_fallback wbC1W dfMainEmptyOutcome (by decide) (by decide) (by decide)
    (by decide) (by decide)

/-- C6 counterexample: this workbook parses fine when its filename carries a
year token, its parse has a first statement whose year the claimed fallback
would use — yet with a token-free filename `parse_all_years` fails with a
wrapped YearExtractionFailed error instead of applying the fallback. -/
theorem parse_all_years_fallback_counterexample :
    parse_xlsx_file ⟨"a_2022", wbW⟩ = .ok gdW ∧
    gdW.statements ≠ [] ∧
    parse_all_years [⟨"predictions", wbW⟩] =
      .error ("Error parsing predictions.xlsx: " ++
              "Cannot extract year from filename: predictions.xlsx") := by
  refine ⟨by decide, by decide, by decide⟩

/-- C6 (amended): a file whose stem holds no 4-digit year token makes
`parse_xlsx_file` fail with YearExtractionFailed; a successful parse implies
the token exists (so the first-statement fallback in `parse_all_years` is
unreachable); and a directory containing any token-free file makes
`parse_all_years` fail rather than fall back. -/
theorem parse_all_years_no_token_fails :
    (∀ f : XFile, findYearToken f.stem.data = Option.none →
      parse_xlsx_file f = .error ("Cannot extract year from filename: " ++ fname f)) ∧
    (∀ f gd, parse_xlsx_file f = .ok gd → (findYearToken f.stem.data).isSome = true) ∧
    (∀ files : List XFile, (∃ f ∈ files, findYearToken f.stem.data = Option.none) →
      ∃ e, parse_all_years files = .error e) := by
  refine ⟨?_, ?_, ?_⟩
  · intro f h
    unfold parse_xlsx_file
    rw [h]
  · intro f gd h
    cases ht : findYearToken f.stem.data with
    | none =>
      unfold parse_xlsx_file at h
      rw [ht] at h
      cases h
    | some y => rfl
  · intro files hex
    rcases files with _ | ⟨f0, rest⟩
    · rcases hex with ⟨f, hf, _⟩
      exact absurd hf (List.not_mem_nil f)
    · rcases foldExcept_processFile_error (f0 :: rest)
        ({ statements := [], predictions := [], outcomes := [] }, []) hex with ⟨e, he⟩
      refine ⟨e, ?_⟩
      unfold parse_all_years
      rw [if_neg (by simp)]
      rw [he]

/-- Witness for C6 (amended): a directory holding one token-free file. -/
theorem parse_all_years_no_token_fails_witness :
    ∃ e, parse_all_years [(⟨"predictions", wbW⟩ : XFile)] = .error e :=
  parse_all_years_no_token_fails.2.2 [⟨"predictions", wbW⟩]
    ⟨⟨"predictions", wbW⟩, List.mem_singleton.mpr rfl, by decide⟩

theorem processFile_ok_shape (acc : GameData × List (Nat × List String)) {f : XFile}
    {gd : GameData} {y : Nat}
    (hp : parse_xlsx_file f = .ok gd)
    (hy : findYearToken f.stem.data = some y)
    (hy0 : ¬ y = 0) :
    processFile acc f =
      (match checkDupes y gd.statements (lookupYear acc.2 y) with
       | .error e => .error ("Error parsing " ++ fname f ++ ": " ++ e)
       | .ok seen2 =>
         .ok ({ statements := acc.1.statements ++ gd.statements
              , predictions := acc.1.predictions ++ gd.predictions
              , outcomes := acc.1.outcomes ++ gd.outcomes }, setYear acc.2 y seen2)) := by
  unfold processFile
  rw [hp]
  dsimp only
  rw [hy]
  dsimp only
  rw [if_neg hy0]
  cases hck : checkDupes y gd.statements (lookupYear acc.2 y) with
  | error e => rfl
  | ok seen2 => rfl

/-- C2: when two files map to the same (nonzero) year and their parsed
statement lists share a global id (same local id under the same year
prefix), `parse_all_years` fails with a duplicate-ID error naming the year,
wrapped with the offending file's name; when the two files map to different
years, the same local ids aggregate without error. -/
theorem parse_all_years_duplicate_id :
    (∀ (f1 f2 : XFile) (gd1 gd2 : GameData) (y : Nat),
      parse_xlsx_file f1 = .ok gd1 → parse_xlsx_file f2 = .ok gd2 →
      findYearToken f1.stem.data = some y → findYearToken f2.stem.data = some y →
      ¬ y = 0 →
      (gd1.statements.map (fun stmt => stmt.id)).Nodup →
      (∃ sid, sid ∈ gd1.statements.map (fun stmt => stmt.id) ∧
              sid ∈ gd2.statements.map (fun stmt => stmt.id)) →
      ∃ sid, parse_all_years [f1, f2] =
        .error ("Error parsing " ++ fname f2 ++ ": " ++
                ("Duplicate statement ID " ++ sid ++ " found in year " ++ toString y))) ∧
    (∀ (f1 f2 : XFile) (gd1 gd2 : GameData) (y1 y2 : Nat),
      parse_xlsx_file f1 = .ok gd1 → parse_xlsx_file f2 = .ok gd2 →
      findYearToken f1.stem.data = some y1 → findYearToken f2.stem.data = some y2 →
      ¬ y1 = 0 → ¬ y2 = 0 → ¬ y1 = y2 →
      (gd1.statements.map (fun stmt => stmt.id)).Nodup →
      (gd2.statements.map (fun stmt => stmt.id)).Nodup →
      parse_all_years [f1, f2] =
        .ok { statements := gd1.statements ++ gd2.statements
            , predictions := gd1.predictions ++ gd2.predictions
            , outcomes := gd1.outcomes ++ gd2.outcomes }) := by
  constructor
  · intro f1 f2 gd1 gd2 y h1 h2 hy1 hy2 hy0 hnd1 hshared
    rcases hshared with ⟨sid, hs1, hs2⟩
    rcases checkDupes_ok_of_nodup (y := y) hnd1
      (fun s _ => List.not_mem_nil s.id) with ⟨seen1, hck1⟩
    have hstep1 := processFile_ok_shape
      (({ statements := [], predictions := [], outcomes := [] } : GameData),
       ([] : List (Nat × List String))) h1 hy1 hy0
    simp only [lookupYear, List.find?, setYear, List.nil_append] at hstep1
    rw [hck1] at hstep1
    dsimp only at hstep1
    have hmem2 : ∃ stmt ∈ gd2.statements, stmt.id ∈ seen1 := by
      rcases List.mem_map.mp hs2 with ⟨s2, hs2m, hs2id⟩
      rcases List.mem_map.mp hs1 with ⟨s1, hs1m, hs1id⟩
      refine ⟨s2, hs2m, ?_⟩
      rw [hs2id, ← hs1id]
      exact (checkDupes_ok_superset hck1).2 s1 hs1m
    rcases checkDupes_error_of_mem (y := y) hmem2 with ⟨sid2, herr⟩
    have hstep2 := processFile_ok_shape
      (({ statements := gd1.statements, predictions := gd1.predictions,
          outcomes := gd1.outcomes } : GameData), [(y, seen1)]) h2 hy2 hy0
    have hlk : lookupYear [(y, seen1)] y = seen1 := by
      simp [lookupYear, List.find?]
    rw [hlk, herr] at hstep2
    dsimp only at hstep2
    refine ⟨sid2, ?_⟩
    unfold parse_all_years
    rw [if_neg (by simp)]
    simp only [foldExcept]
    rw [hstep1]
    dsimp only
    rw [hstep2]
  · intro f1 f2 gd1 gd2 y1 y2 h1 h2 hy1 hy2 hy10 hy20 hyne hnd1 hnd2
    rcases checkDupes_ok_of_nodup (y := y1) hnd1
      (fun s _ => List.not_mem_nil s.id) with ⟨seen1, hck1⟩
    rcases checkDupes_ok_of_nodup (y := y2) hnd2
      (fun s _ => List.not_mem_nil s.id) with ⟨seen2, hck2⟩
    have hstep1 := processFile_ok_shape
      (({ statements := [], predictions := [], outcomes := [] } : GameData),
       ([] : List (Nat × List String))) h1 hy1 hy10
    simp only [lookupYear, List.find?, setYear, List.nil_append] at hstep1
    rw [hck1] at hstep1
    dsimp only at hstep1
    have hstep2 := processFile_ok_shape
      (({ statements := gd1.statements, predictions := gd1.predictions,
          outcomes := gd1.outcomes } : GameData), [(y1, seen1)]) h2 hy2 hy20
    have hlk : lookupYear [(y1, seen1)] y2 = [] := by
      have hb : (y1 == y2) = false := by
        rw [beq_eq_false_iff_ne]
        exact hyne
      simp [lookupYear, List.find?, hb]
    rw [hlk, hck2] at hstep2
    dsimp only at hstep2
    unfold parse_all_years
    rw [if_neg (by simp)]
    simp only [foldExcept]
    rw [hstep1]
    dsimp only
    rw [hstep2]

/-- Witness for C2: two files named for 2022 with the same local id collide;
the same content filed under 2022 and 2023 aggregates cleanly. -/
theorem parse_all_years_duplicate_id_witness :
    (∃ sid, parse_all_years [f1W, f2W] =
      .error ("Error parsing " ++ fname f2W ++ ": " ++
              ("Duplicate statement ID " ++ sid ++ " found in year " ++ toString 2022))) ∧
    parse_all_years [f1W, f2W23] =
      .ok { statements := gdW.statements ++ gdW23.statements
          , predictions := gdW.predictions ++ gdW23.predictions
          , outcomes := gdW.outcomes ++ gdW23.outcomes } :=
  ⟨parse_all_years_duplicate_id.1 f1W f2W gdW gdW 2022 (by decide) (by decide) (by decide)
     (by decide) (by decide) (by decide) ⟨"2022-1", by decide, by decide⟩,
   parse_all_years_duplicate_id.2 f1W f2W23 gdW gdW23 2022 2023 (by decide) (by decide)
     (by decide) (by decide) (by decide) (by decide) (by decide) (by decide) (by decide)⟩

/-- C10: in `validate_predictions`, a prediction whose statement id does not
exist yields exactly one referential error (error count equals the count of
such predictions) and is excluded from the probability-range and
duplicate-pair checks (no such error ever names an invalid id) and from the
completeness warnings (a participant all of whose predictions are invalid is
never warned about); concretely, two identical predictions on a nonexistent
statement with an out-of-range probability produce exactly two referential
errors and nothing else. -/
theorem validate_predictions_invalid_ref_isolated :
    (∀ gd, (validate_predictions gd).errors.countP isNonexistentErr =
      gd.predictions.countP
        (fun p => decide (p.statement_id ∉ gd.statements.map (fun stmt => stmt.id)))) ∧
    (∀ gd sid, sid ∉ gd.statements.map (fun stmt => stmt.id) →
      (∀ q who, PredError.invalidProbability q who sid ∉ (validate_predictions gd).errors) ∧
      (∀ who, PredError.duplicatePrediction who sid ∉ (validate_predictions gd).errors)) ∧
    (∀ gd who, (∀ p ∈ gd.predictions, p.participant = who →
        p.statement_id ∉ gd.statements.map (fun stmt => stmt.id)) →
      ∀ w ∈ (validate_predictions gd).warnings, w.participant ≠ who) ∧
    validate_predictions gdC10 =
      { valid := false
      , errors := [.nonexistentStatement "2022-9", .nonexistentStatement "2022-9"]
      , warnings := [] } := by
  refine ⟨?_, ?_, ?_, by decide⟩
  · intro gd
    exact predLoop_count (gd.statements.map (fun stmt => stmt.id)) gd.statements
      gd.predictions [] []
  · intro gd sid h
    exact predLoop_no_checks_for_invalid (gd.statements.map (fun stmt => stmt.id))
      gd.statements sid h gd.predictions [] []
  · intro gd who hall w hw heq
    have hw2 : w ∈ completenessWarnings gd
        (predLoop (gd.statements.map (fun stmt => stmt.id)) gd.statements
          gd.predictions [] []).2 := hw
    have hp := completenessWarnings_participant hw2
    rcases predLoop_pby_participants (gd.statements.map (fun stmt => stmt.id)) gd.statements
        gd.predictions [] [] w.participant hp with hc | hc
    · simp [pbyParticipants] at hc
    · rcases hc with ⟨p, hpm, hpart, hvalid⟩
      exact hall p hpm (by rw [hpart, heq]) hvalid

/-- Witness for C10 at the two-identical-invalid-predictions dataset. -/
theorem validate_predictions_invalid_ref_isolated_witness :
    PredError.duplicatePrediction "Alice" "2022-9" ∉ (validate_predictions gdC10).errors ∧
    PredError.invalidProbability 7 "Alice" "2022-9" ∉ (validate_predictions gdC10).errors ∧
    (∀ w ∈ (validate_predictions gdC10).warnings, w.participant ≠ "Alice") :=
  ⟨(validate_predictions_invalid_ref_isolated.2.1 gdC10 "2022-9" (by decide)).2 "Alice",
   (validate_predictions_invalid_ref_isolated.2.1 gdC10 "2022-9" (by decide)).1 7 "Alice",
   validate_predictions_invalid_ref_isolated.2.2.1 gdC10 "Alice" (by decide)⟩
